import Mathlib

/-!
Verification of the input-classification and parameter-validation layer of a
GMT Python front-end: the resolution catalog, grid-shape derivation and
registration handling of `load_earth_relief` (pygmt/datasets/earth_relief.py),
and the input-kind classification consumed by the `surface` gridding wrapper.

Python runtime errors are modelled by an explicit error type; a Python
function that can raise returns `Except PyError _`.
-/

/-- The Python exceptions that the embedded code can raise.
`GMTInvalidInput` is the library error type `pygmt.exceptions.GMTInvalidInput`;
the others are built-in Python exceptions. -/
inductive PyError where
  | GMTInvalidInput (msg : String)
  | KeyError (key : String)
  | IndexError (msg : String)
  | ValueError (msg : String)
  | NameError (msg : String)
  | ZeroDivisionError (msg : String)
  deriving Repr, DecidableEq

instance {ε α : Type} [DecidableEq ε] [DecidableEq α] : DecidableEq (Except ε α) := fun x y =>
  match x, y with
  | .ok a, .ok b => if h : a = b then .isTrue (by rw [h]) else .isFalse (by simp [h])
  | .ok _, .error _ => .isFalse (by simp)
  | .error _, .ok _ => .isFalse (by simp)
  | .error e, .error f => if h : e = f then .isTrue (by rw [h]) else .isFalse (by simp [h])

/-- Python format spec `f"{res:02d}"` for a natural number: decimal digits,
zero-padded on the left to width 2. -/
def format02d (res : Nat) : String :=
  if res < 10 then "0" ++ toString res else toString res

/-- The fixed catalog of valid Earth relief resolutions, built exactly as in
`_is_valid_resolution`: `"01d"`, then the minute values, then the second
values, each two-digit-zero-padded and suffixed by the unit letter. -/
def valid_resolutions : List String :=
  "01d" ::
    ([60, 30, 20, 15, 10, 6, 5, 4, 3, 2, 1].map (fun res => format02d res ++ "m")
      ++ [30, 15].map (fun res => format02d res ++ "s"))

/-- `_is_valid_resolution(resolution)`: returns normally when the code is in
the catalog, otherwise raises `GMTInvalidInput` naming the offending code. -/
def is_valid_resolution (resolution : String) : Except PyError Unit :=
  if resolution ∈ valid_resolutions then Except.ok ()
  else Except.error (PyError.GMTInvalidInput
    ("Invalid Earth relief resolution \x27" ++ resolution ++ "\x27."))

/-- Decimal parsing of a character list: `some` the value when every character
is a digit and the list is non-empty, `none` otherwise. -/
def parseNatDigits (cs : List Char) : Option Nat :=
  if cs ≠ [] ∧ cs.all Char.isDigit then
    some (cs.foldl (fun n c => n * 10 + (c.toNat - 48)) 0)
  else none

/-- Python `int(resolution[:2])`: the leading two characters of the code parsed
as a decimal natural number, `none` when they are not a numeral. -/
def magnitudeOf (resolution : String) : Option Nat :=
  parseNatDigits (resolution.data.take 2)

/-- The unit branch of `_shape_from_resolution`: given the unit character
`resolution[2]`, convert the magnitude `int(resolution[:2])` to seconds of arc
(`d`: times 60*60, `m`: times 60, `s`: unchanged). A unit letter outside
`d`/`m`/`s` leaves the Python local `seconds` unassigned, which surfaces as a
`NameError` at its first use. -/
def arcSeconds (unit : Char) (resolution : String) : Except PyError Nat :=
  if unit = 'd' then
    match magnitudeOf resolution with
    | some m => Except.ok (m * 60 * 60)
    | none => Except.error (PyError.ValueError "invalid literal for int with base 10")
  else if unit = 'm' then
    match magnitudeOf resolution with
    | some m => Except.ok (m * 60)
    | none => Except.error (PyError.ValueError "invalid literal for int with base 10")
  else if unit = 's' then
    match magnitudeOf resolution with
    | some m => Except.ok m
    | none => Except.error (PyError.ValueError "invalid literal for int with base 10")
  else Except.error (PyError.NameError "name \x27seconds\x27 is not defined")

/-- `_shape_from_resolution(resolution)`: validates the code, reads the unit
character `resolution[2]`, converts the magnitude to seconds of arc, and
returns `(180*60*60 // seconds + 1, 360*60*60 // seconds + 1)` with integer
(floor) division. -/
def shape_from_resolution (resolution : String) : Except PyError (Nat × Nat) :=
  match is_valid_resolution resolution with
  | Except.error e => Except.error e
  | Except.ok _ =>
    match resolution.data.get? 2 with
    | none => Except.error (PyError.IndexError "string index out of range")
    | some unit =>
      match arcSeconds unit resolution with
      | Except.error e => Except.error e
      | Except.ok 0 => Except.error (PyError.ZeroDivisionError "integer division or modulo by zero")
      | Except.ok seconds =>
        Except.ok (180 * 60 * 60 / seconds + 1, 360 * 60 * 60 / seconds + 1)

/-- Modelled from the spec: the seconds-of-arc conversion as the spec words it
for `shape_from_resolution` — the leading two-digit magnitude converted by the
unit in the 3rd character of the code: `d` gives `magnitude*3600`, `m` gives
`magnitude*60`, `s` gives `magnitude`. Used only to compare the source
function against the spec text. -/
def specSecondsOfArc (code : String) : Option Nat :=
  match code.data.get? 2, magnitudeOf code with
  | some 'd', some magnitude => some (magnitude * 3600)
  | some 'm', some magnitude => some (magnitude * 60)
  | some 's', some magnitude => some magnitude
  | _, _ => none

/-- The registration handling inside `load_earth_relief`: for one of the three
recognized modes it returns the cache-key suffix (`f"_{registration[0]}"` when
the mode is a non-empty string, `""` for `None`); for any other value it raises
`GMTInvalidInput` naming the three allowed values. -/
def registration_suffix (registration : Option String) : Except PyError String :=
  if registration = some "pixel" ∨ registration = some "gridline" ∨ registration = none then
    Except.ok (match registration with
      | some r => if r ≠ "" then "_" ++ String.mk (r.data.take 1) else ""
      | none => "")
  else
    Except.error (PyError.GMTInvalidInput
      ("Invalid grid registration: " ++ (registration.getD "None") ++ ", should be either "
        ++ "\x27pixel\x27, \x27gridline\x27 or None. Default is None, where a "
        ++ "pixel-registered grid is returned unless only the "
        ++ "gridline-registered grid is available."))

/-- A coordinate axis of a labeled array: only its metadata dictionary is
observed by the code under study. Attribute dictionaries are association
lists keyed by attribute name. -/
structure Coord where
  attrs : List (String × String)
  deriving Repr, DecidableEq

/-- An in-memory labeled array (`xarray.DataArray`) as observed by
`load_earth_relief`: its name, its metadata dictionary, and its coordinate
axes with their metadata dictionaries. -/
structure DataArray where
  name : Option String
  attrs : List (String × String)
  coords : List Coord
  deriving Repr, DecidableEq

/-- Python dict assignment `d[key] = val` on an association list: replace the
value at an existing key, otherwise append the new entry. -/
def dictSet (attrs : List (String × String)) (key val : String) : List (String × String) :=
  if attrs.any (fun kv => kv.1 == key) then
    attrs.map (fun kv => if kv.1 == key then (key, val) else kv)
  else attrs ++ [(key, val)]

/-- Python `d.pop(key)` with no default: removes the entry, raising `KeyError`
when the key is absent. -/
def dictPop (attrs : List (String × String)) (key : String) :
    Except PyError (List (String × String)) :=
  if attrs.any (fun kv => kv.1 == key) then
    Except.ok (attrs.filter (fun kv => kv.1 != key))
  else Except.error (PyError.KeyError key)

/-- The four attribute assignments of `load_earth_relief` applied to a grid
attribute dictionary, in source order. -/
def newAttrs (attrs : List (String × String)) : List (String × String) :=
  dictSet (dictSet (dictSet (dictSet attrs
    "long_name" "elevation relative to the geoid")
    "units" "meters")
    "vertical_datum" "EMG96")
    "horizontal_datum" "WGS84"

/-- The loop `for coord in grid.coords: grid[coord].attrs.pop("actual_range")`:
pops `actual_range` from each coordinate axis in order, propagating the first
`KeyError`. -/
def pop_coords : List Coord → Except PyError (List Coord)
  | [] => Except.ok []
  | c :: rest =>
    match dictPop c.attrs "actual_range" with
    | Except.error e => Except.error e
    | Except.ok ca =>
      match pop_coords rest with
      | Except.error e => Except.error e
      | Except.ok rest' => Except.ok (Coord.mk ca :: rest')

/-- The metadata block at the end of `load_earth_relief`: set the grid name,
add the `long_name`/`units`/`vertical_datum`/`horizontal_datum` attributes,
then pop `actual_range` from the grid attributes and from every coordinate
axis before returning the grid. -/
def attach_metadata (grid : DataArray) : Except PyError DataArray :=
  match dictPop (newAttrs grid.attrs) "actual_range" with
  | Except.error e => Except.error e
  | Except.ok a =>
    match pop_coords grid.coords with
    | Except.error e => Except.error e
    | Except.ok cs => Except.ok (DataArray.mk (some "elevation") a cs)

/-- A call to one of the collaborators of `load_earth_relief`: the
caching/resolution collaborator `which(fname, download="a")` or the
array-loading collaborator `xr.open_dataarray(fname)`. -/
inductive Collab where
  | whichCall (fname : String)
  | openCall (fname : String)
  deriving Repr, DecidableEq

/-- `load_earth_relief(resolution, registration)`, parameterized by the two
collaborators (`wh` resolves a dataset name to a local path, `open_dataarray`
loads a path into a labeled array). Returns the Python result together with
the trace of collaborator calls the run performed, in order. -/
def load_earth_relief (wh : String → String) (open_dataarray : String → DataArray)
    (resolution : String) (registration : Option String) :
    Except PyError DataArray × List Collab :=
  match is_valid_resolution resolution with
  | Except.error e => (Except.error e, [])
  | Except.ok _ =>
    match registration_suffix registration with
    | Except.error e => (Except.error e, [])
    | Except.ok reg =>
      let fname := wh ("@earth_relief_" ++ resolution ++ reg)
      let grid := open_dataarray fname
      (attach_metadata grid,
        [Collab.whichCall ("@earth_relief_" ++ resolution ++ reg), Collab.openCall fname])

/-- The closed enumeration of input kinds produced by the classifier. -/
inductive InputKind where
  | file
  | grid
  | matrix
  | vectors
  deriving Repr, DecidableEq

/-- Modelled from the spec: the possible shapes of the `data` argument of a
gridding call — a path-like string or remote dataset name, an
already-gridded coordinate-labeled 2-D array, or a plain 2-D numeric matrix.
The arrays themselves are not inspected by the classifier. The source of
`data_kind`/`surface` is not in the repository snapshot; only their tests
are. -/
inductive DataInput where
  | file (path : String)
  | grid
  | matrix
  deriving Repr, DecidableEq

/-- Modelled from the spec: `data_kind(data, x, y, z)` (the `classify`
contract of §4.1), whose source is missing from the snapshot. Ordered,
first match wins: path-like `data` is `file`; labeled-array `data` is
`grid`; plain-array `data` is `matrix`; absent `data` with `x` and `y`
1-D sequences of equal length is `vectors` (`z` optional for
classification); anything else raises `GMTInvalidInput`. -/
def data_kind (data : Option DataInput) (x y : Option (List Int)) (_z : Option (List Int)) :
    Except PyError InputKind :=
  match data with
  | some (DataInput.file _) => Except.ok InputKind.file
  | some DataInput.grid => Except.ok InputKind.grid
  | some DataInput.matrix => Except.ok InputKind.matrix
  | none =>
    match x, y with
    | some xs, some ys =>
      if xs.length = ys.length then Except.ok InputKind.vectors
      else Except.error (PyError.GMTInvalidInput "x and y must be of equal length.")
    | _, _ => Except.error (PyError.GMTInvalidInput "Unrecognized data input.")

/-- Modelled from the spec: the input-handling front half of `surface`, whose
source is missing from the snapshot (only `test_surface.py` is present). It
classifies its inputs, rejects `vectors` lacking `z` (three coordinate
streams required), dispatches `file`/`matrix`/`vectors` to the engine, and
rejects every other kind — in particular `grid` — with `GMTInvalidInput`.
The engine call itself is out of scope; the returned kind records which
serialization path was taken. -/
def surface (data : Option DataInput) (x y z : Option (List Int)) : Except PyError InputKind :=
  match data_kind data x y z with
  | Except.error e => Except.error e
  | Except.ok kind =>
    if kind = InputKind.vectors ∧ z = none then
      Except.error (PyError.GMTInvalidInput "Must provide z with x and y.")
    else
      match kind with
      | InputKind.file => Except.ok InputKind.file
      | InputKind.matrix => Except.ok InputKind.matrix
      | InputKind.vectors => Except.ok InputKind.vectors
      | InputKind.grid => Except.error (PyError.GMTInvalidInput "Unrecognized data type: grid")

/-! Helper lemmas and decidable per-code checks used to settle catalog-wide
properties by evaluation over the fourteen catalog members. -/

/-- Per-code check for the seconds-of-arc refinement: the spec-side
conversion is defined and the source function returns exactly the shapes
the spec derives from it. -/
def secondsCheck (r : String) : Bool :=
  match specSecondsOfArc r with
  | some s => decide (shape_from_resolution r = Except.ok (180 * 3600 / s + 1, 360 * 3600 / s + 1))
  | none => false

lemma secondsCheck_sound {r : String} (h : secondsCheck r = true) :
    ∃ s, specSecondsOfArc r = some s
      ∧ shape_from_resolution r = Except.ok (180 * 3600 / s + 1, 360 * 3600 / s + 1) := by
  unfold secondsCheck at h
  cases hs : specSecondsOfArc r with
  | none => rw [hs] at h; exact absurd h (by simp)
  | some s => rw [hs] at h; exact ⟨s, rfl, of_decide_eq_true h⟩

/-- C1: for every resolution code in the fixed catalog, `shape_from_resolution`
validates the code, converts the leading two-digit magnitude to seconds of arc
by the unit in the 3rd character (`d`: magnitude*3600, `m`: magnitude*60,
`s`: magnitude), and returns exactly `(180*3600 // seconds + 1,
360*3600 // seconds + 1)` with integer floor division. -/
theorem shape_from_resolution_follows_spec :
    ∀ r ∈ valid_resolutions,
      ∃ s, specSecondsOfArc r = some s
        ∧ shape_from_resolution r = Except.ok (180 * 3600 / s + 1, 360 * 3600 / s + 1) := by
  intro r hr
  exact secondsCheck_sound (List.all_eq_true.mp (by decide) r hr)

/-- Witness for C1 at the catalog member `"30m"`. -/
theorem shape_from_resolution_follows_spec_witness :
    "30m" ∈ valid_resolutions
    ∧ ∃ s, specSecondsOfArc "30m" = some s
      ∧ shape_from_resolution "30m" = Except.ok (180 * 3600 / s + 1, 360 * 3600 / s + 1) :=
  ⟨by decide, shape_from_resolution_follows_spec "30m" (by decide)⟩

/-- C2: `is_valid_resolution` returns normally exactly on the fourteen-member
catalog (`"01d"`, the zero-padded minute values 60..1 suffixed `m`, and the
second values 30 and 15 suffixed `s`), and on every other string raises
`GMTInvalidInput` whose message lists the offending code. -/
theorem is_valid_resolution_catalog :
    ∀ s : String,
      (is_valid_resolution s = Except.ok () ↔
        s ∈ ["01d", "60m", "30m", "20m", "15m", "10m", "06m",
             "05m", "04m", "03m", "02m", "01m", "30s", "15s"])
      ∧ (s ∉ ["01d", "60m", "30m", "20m", "15m", "10m", "06m",
              "05m", "04m", "03m", "02m", "01m", "30s", "15s"] →
        is_valid_resolution s = Except.error (PyError.GMTInvalidInput
          ("Invalid Earth relief resolution \x27" ++ s ++ "\x27."))) := by
  have hcat : valid_resolutions =
      ["01d", "60m", "30m", "20m", "15m", "10m", "06m",
       "05m", "04m", "03m", "02m", "01m", "30s", "15s"] := by decide
  intro s
  by_cases hmem : s ∈ valid_resolutions
  · have hm2 := hcat ▸ hmem
    exact ⟨⟨fun _ => hm2, fun _ => by simp [is_valid_resolution, hmem]⟩,
      fun hn => absurd hm2 hn⟩
  · have hm2 : s ∉ ["01d", "60m", "30m", "20m", "15m", "10m", "06m",
        "05m", "04m", "03m", "02m", "01m", "30s", "15s"] := by
      rw [← hcat]; exact hmem
    refine ⟨⟨fun h => ?_, fun hx => absurd hx hm2⟩,
      fun _ => by simp [is_valid_resolution, hmem]⟩
    simp [is_valid_resolution, hmem] at h

/-- Witness for C2 at the invalid code `"5m"`. -/
theorem is_valid_resolution_catalog_witness :
    "5m" ∉ ["01d", "60m", "30m", "20m", "15m", "10m", "06m",
            "05m", "04m", "03m", "02m", "01m", "30s", "15s"]
    ∧ is_valid_resolution "5m" = Except.error (PyError.GMTInvalidInput
        "Invalid Earth relief resolution \x275m\x27.") :=
  ⟨by decide, (is_valid_resolution_catalog "5m").2 (by decide)⟩

/-- C4: `shape_from_resolution` returns the documented shapes for the five
example codes. -/
theorem shape_from_resolution_known_values :
    shape_from_resolution "60m" = Except.ok (181, 361)
    ∧ shape_from_resolution "30m" = Except.ok (361, 721)
    ∧ shape_from_resolution "10m" = Except.ok (1081, 2161)
    ∧ shape_from_resolution "30s" = Except.ok (21601, 43201)
    ∧ shape_from_resolution "15s" = Except.ok (43201, 86401) := by
  decide

/-- Per-code check for totality of `shape_from_resolution` and the shape
relation between the two dimensions. -/
def shapeRelCheck (r : String) : Bool :=
  match shape_from_resolution r with
  | Except.ok (nlat, nlon) => decide (0 < nlat ∧ 0 < nlon ∧ nlon = 2 * (nlat - 1) + 1)
  | Except.error _ => false

lemma shapeRelCheck_sound {r : String} (h : shapeRelCheck r = true) :
    ∃ nlat nlon, shape_from_resolution r = Except.ok (nlat, nlon)
      ∧ 0 < nlat ∧ 0 < nlon ∧ nlon = 2 * (nlat - 1) + 1 := by
  unfold shapeRelCheck at h
  cases hs : shape_from_resolution r with
  | error e => rw [hs] at h; exact absurd h (by simp)
  | ok p =>
    obtain ⟨nlat, nlon⟩ := p
    rw [hs] at h
    exact ⟨nlat, nlon, rfl, of_decide_eq_true h⟩

/-- C5: for every code in the fixed catalog, `shape_from_resolution`
terminates without error and returns two positive integers with
`nlon = 2*(nlat-1) + 1`. -/
theorem shape_from_resolution_total_on_catalog :
    ∀ r ∈ valid_resolutions,
      ∃ nlat nlon, shape_from_resolution r = Except.ok (nlat, nlon)
        ∧ 0 < nlat ∧ 0 < nlon ∧ nlon = 2 * (nlat - 1) + 1 := by
  intro r hr
  exact shapeRelCheck_sound (List.all_eq_true.mp (by decide) r hr)

/-- Witness for C5 at the catalog member `"01d"`. -/
theorem shape_from_resolution_total_on_catalog_witness :
    "01d" ∈ valid_resolutions
    ∧ ∃ nlat nlon, shape_from_resolution "01d" = Except.ok (nlat, nlon)
      ∧ 0 < nlat ∧ 0 < nlon ∧ nlon = 2 * (nlat - 1) + 1 :=
  ⟨by decide, shape_from_resolution_total_on_catalog "01d" (by decide)⟩

/-- Per-code check for the unit-branch safety property: the unit character
exists and is `d`, `m` or `s`, the seconds value is assigned and positive,
and the whole function succeeds. -/
def unitSafetyCheck (r : String) : Bool :=
  match r.data.get? 2 with
  | some u =>
    decide (u = 'd' ∨ u = 'm' ∨ u = 's')
    && (match arcSeconds u r with
        | Except.ok s => decide (0 < s)
        | Except.error _ => false)
    && (match shape_from_resolution r with
        | Except.ok _ => true
        | Except.error _ => false)
  | none => false

lemma unitSafetyCheck_sound {r : String} (h : unitSafetyCheck r = true) :
    ∃ u, r.data.get? 2 = some u ∧ (u = 'd' ∨ u = 'm' ∨ u = 's')
      ∧ (∃ s, arcSeconds u r = Except.ok s ∧ 0 < s)
      ∧ ∃ p, shape_from_resolution r = Except.ok p := by
  unfold unitSafetyCheck at h
  cases hu : r.data.get? 2 with
  | none => rw [hu] at h; exact absurd h (by simp)
  | some u =>
    rw [hu] at h
    simp only [Bool.and_eq_true] at h
    obtain ⟨⟨h1, h2⟩, h3⟩ := h
    refine ⟨u, rfl, of_decide_eq_true h1, ?_, ?_⟩
    · cases ha : arcSeconds u r with
      | error e => rw [ha] at h2; exact absurd h2 (by simp)
      | ok s => rw [ha] at h2; exact ⟨s, rfl, of_decide_eq_true h2⟩
    · cases hs : shape_from_resolution r with
      | error e => rw [hs] at h3; exact absurd h3 (by simp)
      | ok p => exact ⟨p, rfl⟩

/-- C10: for every code accepted by `is_valid_resolution`, the unit character
`resolution[2]` is one of `d`, `m`, `s`, so the `seconds` local is always
assigned (no fall-through past the unit branches) and is strictly positive,
making the integer divisions well-defined and the function total on the
catalog. -/
theorem unit_branch_safety_on_catalog :
    ∀ r ∈ valid_resolutions,
      ∃ u, r.data.get? 2 = some u ∧ (u = 'd' ∨ u = 'm' ∨ u = 's')
        ∧ (∃ s, arcSeconds u r = Except.ok s ∧ 0 < s)
        ∧ ∃ p, shape_from_resolution r = Except.ok p := by
  intro r hr
  exact unitSafetyCheck_sound (List.all_eq_true.mp (by decide) r hr)

/-- Witness for C10 at the catalog member `"15s"`. -/
theorem unit_branch_safety_on_catalog_witness :
    "15s" ∈ valid_resolutions
    ∧ ∃ u, "15s".data.get? 2 = some u ∧ (u = 'd' ∨ u = 'm' ∨ u = 's')
      ∧ (∃ s, arcSeconds u "15s" = Except.ok s ∧ 0 < s)
      ∧ ∃ p, shape_from_resolution "15s" = Except.ok p :=
  ⟨by decide, unit_branch_safety_on_catalog "15s" (by decide)⟩

/-- C3: the registration handling maps `"pixel"` to `"_p"`, `"gridline"` to
`"_g"`, `None` to `""`, and raises `GMTInvalidInput` naming the three allowed
values for every other mode. -/
theorem registration_suffix_mapping :
    registration_suffix (some "pixel") = Except.ok "_p"
    ∧ registration_suffix (some "gridline") = Except.ok "_g"
    ∧ registration_suffix none = Except.ok ""
    ∧ ∀ r : Option String,
        r ≠ some "pixel" → r ≠ some "gridline" → r ≠ none →
        registration_suffix r = Except.error (PyError.GMTInvalidInput
          ("Invalid grid registration: " ++ (r.getD "None") ++ ", should be either "
            ++ "\x27pixel\x27, \x27gridline\x27 or None. Default is None, where a "
            ++ "pixel-registered grid is returned unless only the "
            ++ "gridline-registered grid is available.")) := by
  refine ⟨by decide, by decide, by decide, fun r h1 h2 h3 => ?_⟩
  simp [registration_suffix, h1, h2, h3]

/-- Witness for C3 at the unrecognized mode `"foo"`. -/
theorem registration_suffix_mapping_witness :
    registration_suffix (some "foo") = Except.error (PyError.GMTInvalidInput
      ("Invalid grid registration: foo, should be either "
        ++ "\x27pixel\x27, \x27gridline\x27 or None. Default is None, where a "
        ++ "pixel-registered grid is returned unless only the "
        ++ "gridline-registered grid is available.")) :=
  registration_suffix_mapping.2.2.2 (some "foo") (by decide) (by decide) (by decide)

/-- C6: a call of `load_earth_relief` with an invalid resolution code or an
invalid registration mode raises `GMTInvalidInput` and performs no
collaborator invocation: the trace of calls to the caching/resolution
collaborator and the array-loading collaborator is empty, so validation
strictly precedes any I/O. -/
theorem load_earth_relief_validation_precedes_collaborators :
    ∀ (wh : String → String) (open_dataarray : String → DataArray)
      (resolution : String) (registration : Option String),
      (resolution ∉ valid_resolutions
        ∨ (registration ≠ some "pixel" ∧ registration ≠ some "gridline" ∧ registration ≠ none)) →
      (load_earth_relief wh open_dataarray resolution registration).2 = []
      ∧ ∃ msg, (load_earth_relief wh open_dataarray resolution registration).1
          = Except.error (PyError.GMTInvalidInput msg) := by
  intro wh open_dataarray resolution registration h
  by_cases hres : resolution ∈ valid_resolutions
  · rcases h with hres2 | ⟨h1, h2, h3⟩
    · exact absurd hres hres2
    · constructor
      · simp [load_earth_relief, is_valid_resolution, hres, registration_suffix, h1, h2, h3]
      · exact ⟨"Invalid grid registration: " ++ (registration.getD "None") ++ ", should be either "
            ++ "\x27pixel\x27, \x27gridline\x27 or None. Default is None, where a "
            ++ "pixel-registered grid is returned unless only the "
            ++ "gridline-registered grid is available.", by
          simp [load_earth_relief, is_valid_resolution, hres, registration_suffix, h1, h2, h3]⟩
  · constructor
    · simp [load_earth_relief, is_valid_resolution, hres]
    · exact ⟨"Invalid Earth relief resolution \x27" ++ resolution ++ "\x27.", by
        simp [load_earth_relief, is_valid_resolution, hres]⟩

/-- Witness for C6: requesting resolution `"5m"` performs no collaborator
call and fails with `GMTInvalidInput`. -/
theorem load_earth_relief_validation_witness :
    (load_earth_relief (fun _ => "local.nc") (fun _ => DataArray.mk none [] []) "5m" none).2 = []
    ∧ ∃ msg, (load_earth_relief (fun _ => "local.nc")
        (fun _ => DataArray.mk none [] []) "5m" none).1
        = Except.error (PyError.GMTInvalidInput msg) :=
  load_earth_relief_validation_precedes_collaborators
    (fun _ => "local.nc") (fun _ => DataArray.mk none [] []) "5m" none (Or.inl (by decide))

/-- C7: when a gridding operation that requires scattered points is given
data classified as kind `grid` (a coordinate-labeled 2-D array), the call
fails with `GMTInvalidInput` rather than proceeding to the external engine. -/
theorem surface_rejects_grid_kind :
    ∀ (x y z : Option (List Int)),
      data_kind (some DataInput.grid) x y z = Except.ok InputKind.grid
      ∧ surface (some DataInput.grid) x y z
          = Except.error (PyError.GMTInvalidInput "Unrecognized data type: grid") := by
  intro x y z
  exact ⟨rfl, by simp [surface, data_kind]⟩

/-- C8: with `data` absent and `x`, `y` equal-length 1-D sequences, the
classifier returns `vectors` (whether or not `z` is given), yet `surface`,
which requires three coordinate streams, rejects the call with
`GMTInvalidInput` when `z` is absent. -/
theorem surface_vectors_require_z :
    ∀ (xs ys : List Int) (z : Option (List Int)), xs.length = ys.length →
      data_kind none (some xs) (some ys) z = Except.ok InputKind.vectors
      ∧ surface none (some xs) (some ys) none
          = Except.error (PyError.GMTInvalidInput "Must provide z with x and y.") := by
  intro xs ys z h
  constructor
  · simp [data_kind, h]
  · simp [surface, data_kind, h]

/-- Witness for C8 at two concrete equal-length coordinate vectors. -/
theorem surface_vectors_require_z_witness :
    ([1, 2] : List Int).length = ([3, 4] : List Int).length
    ∧ data_kind none (some [1, 2]) (some [3, 4]) none = Except.ok InputKind.vectors
    ∧ surface none (some [1, 2]) (some [3, 4]) none
        = Except.error (PyError.GMTInvalidInput "Must provide z with x and y.") :=
  ⟨by decide, surface_vectors_require_z [1, 2] [3, 4] none (by decide)⟩

lemma beq_false_symm {a b : String} (h : (a == b) = false) : (b == a) = false := by
  rw [beq_eq_false_iff_ne] at h ⊢
  exact fun e => h e.symm

lemma lookup_cons_true {key : String} {kv : String × String} {rest : List (String × String)}
    (h : (key == kv.1) = true) : List.lookup key (kv :: rest) = some kv.2 := by
  obtain ⟨k, v⟩ := kv
  rw [List.lookup_cons, h]

lemma lookup_cons_false {key : String} {kv : String × String} {rest : List (String × String)}
    (h : (key == kv.1) = false) : List.lookup key (kv :: rest) = List.lookup key rest := by
  obtain ⟨k, v⟩ := kv
  rw [List.lookup_cons, h]

lemma lookup_filter_self (key : String) (l : List (String × String)) :
    List.lookup key (l.filter (fun kv => kv.1 != key)) = none := by
  induction l with
  | nil => rfl
  | cons kv rest ih =>
    cases hb : kv.1 == key with
    | true =>
      rw [List.filter_cons, if_neg (by simp [bne, hb])]
      exact ih
    | false =>
      rw [List.filter_cons, if_pos (by simp [bne, hb]), lookup_cons_false (beq_false_symm hb)]
      exact ih

lemma lookup_filter_ne {key other : String} (h : key ≠ other) (l : List (String × String)) :
    List.lookup key (l.filter (fun kv => kv.1 != other)) = List.lookup key l := by
  induction l with
  | nil => rfl
  | cons kv rest ih =>
    cases hb : kv.1 == other with
    | true =>
      have hk : kv.1 = other := by rwa [beq_iff_eq] at hb
      have hbk : (key == kv.1) = false := by
        rw [beq_eq_false_iff_ne, hk]; exact h
      rw [List.filter_cons, if_neg (by simp [bne, hb]), lookup_cons_false hbk]
      exact ih
    | false =>
      rw [List.filter_cons, if_pos (by simp [bne, hb])]
      cases hbk : key == kv.1 with
      | true => rw [lookup_cons_true hbk, lookup_cons_true hbk]
      | false => rw [lookup_cons_false hbk, lookup_cons_false hbk]; exact ih

lemma lookup_map_replace_self {l : List (String × String)} {key : String} (val : String)
    (hany : l.any (fun kv => kv.1 == key) = true) :
    List.lookup key (l.map (fun kv => if kv.1 == key then (key, val) else kv)) = some val := by
  induction l with
  | nil => simp at hany
  | cons kv rest ih =>
    cases hb : kv.1 == key with
    | true => rw [List.map_cons, if_pos hb, lookup_cons_true (by simp)]
    | false =>
      rw [List.any_cons, hb, Bool.false_or] at hany
      rw [List.map_cons, if_neg (by simp [hb]), lookup_cons_false (beq_false_symm hb)]
      exact ih hany

lemma lookup_append_single_self {l : List (String × String)} {key : String} (val : String)
    (hnone : l.any (fun kv => kv.1 == key) = false) :
    List.lookup key (l ++ [(key, val)]) = some val := by
  induction l with
  | nil => rw [List.nil_append, lookup_cons_true (by simp)]
  | cons kv rest ih =>
    cases hb : kv.1 == key with
    | true => rw [List.any_cons, hb, Bool.true_or] at hnone; cases hnone
    | false =>
      rw [List.any_cons, hb, Bool.false_or] at hnone
      rw [List.cons_append, lookup_cons_false (beq_false_symm hb)]
      exact ih hnone

lemma lookup_dictSet_self (l : List (String × String)) (key val : String) :
    List.lookup key (dictSet l key val) = some val := by
  cases hany : l.any (fun kv => kv.1 == key) with
  | true =>
    unfold dictSet
    rw [if_pos hany]
    exact lookup_map_replace_self val hany
  | false =>
    unfold dictSet
    rw [if_neg (by simp [hany])]
    exact lookup_append_single_self val hany

lemma lookup_map_replace_ne {key other : String} (h : key ≠ other)
    (val : String) (l : List (String × String)) :
    List.lookup key (l.map (fun kv => if kv.1 == other then (other, val) else kv))
      = List.lookup key l := by
  induction l with
  | nil => rfl
  | cons kv rest ih =>
    cases hb : kv.1 == other with
    | true =>
      have hk : kv.1 = other := by rwa [beq_iff_eq] at hb
      have hbo : (key == other) = false := beq_eq_false_iff_ne.mpr h
      have hbk : (key == kv.1) = false := by rw [hk]; exact hbo
      rw [List.map_cons, if_pos hb, lookup_cons_false hbo, lookup_cons_false hbk]
      exact ih
    | false =>
      rw [List.map_cons, if_neg (by simp [hb])]
      cases hbk : key == kv.1 with
      | true => rw [lookup_cons_true hbk, lookup_cons_true hbk]
      | false => rw [lookup_cons_false hbk, lookup_cons_false hbk]; exact ih

lemma lookup_append_single_ne {key other : String} (h : key ≠ other)
    (val : String) (l : List (String × String)) :
    List.lookup key (l ++ [(other, val)]) = List.lookup key l := by
  induction l with
  | nil =>
    rw [List.nil_append, lookup_cons_false (beq_eq_false_iff_ne.mpr h)]
  | cons kv rest ih =>
    cases hbk : key == kv.1 with
    | true => rw [List.cons_append, lookup_cons_true hbk, lookup_cons_true hbk]
    | false => rw [List.cons_append, lookup_cons_false hbk, lookup_cons_false hbk]; exact ih

lemma lookup_dictSet_ne {key other : String} (h : key ≠ other)
    (l : List (String × String)) (val : String) :
    List.lookup key (dictSet l other val) = List.lookup key l := by
  unfold dictSet
  split
  · exact lookup_map_replace_ne h val l
  · exact lookup_append_single_ne h val l

lemma dictPop_ok {l l' : List (String × String)} {key : String}
    (h : dictPop l key = Except.ok l') :
    l' = l.filter (fun kv => kv.1 != key) := by
  unfold dictPop at h
  split at h
  · injection h with h; exact h.symm
  · cases h

lemma newAttrs_long_name (attrs : List (String × String)) :
    List.lookup "long_name" (newAttrs attrs) = some "elevation relative to the geoid" := by
  unfold newAttrs
  rw [lookup_dictSet_ne (by decide), lookup_dictSet_ne (by decide),
    lookup_dictSet_ne (by decide), lookup_dictSet_self]

lemma newAttrs_units (attrs : List (String × String)) :
    List.lookup "units" (newAttrs attrs) = some "meters" := by
  unfold newAttrs
  rw [lookup_dictSet_ne (by decide), lookup_dictSet_ne (by decide), lookup_dictSet_self]

lemma newAttrs_vertical_datum (attrs : List (String × String)) :
    List.lookup "vertical_datum" (newAttrs attrs) = some "EMG96" := by
  unfold newAttrs
  rw [lookup_dictSet_ne (by decide), lookup_dictSet_self]

lemma newAttrs_horizontal_datum (attrs : List (String × String)) :
    List.lookup "horizontal_datum" (newAttrs attrs) = some "WGS84" := by
  unfold newAttrs
  rw [lookup_dictSet_self]

lemma pop_coords_ok {cs cs' : List Coord} (h : pop_coords cs = Except.ok cs') :
    ∀ c ∈ cs', List.lookup "actual_range" c.attrs = none := by
  induction cs generalizing cs' with
  | nil =>
    simp only [pop_coords] at h
    injection h with h
    subst h
    intro c hc
    cases hc
  | cons c rest ih =>
    simp only [pop_coords] at h
    cases hp : dictPop c.attrs "actual_range" with
    | error e => rw [hp] at h; cases h
    | ok ca =>
      rw [hp] at h
      cases hr : pop_coords rest with
      | error e => rw [hr] at h; cases h
      | ok rest' =>
        rw [hr] at h
        injection h with h
        subst h
        intro c' hc'
        rcases List.mem_cons.mp hc' with rfl | hmem
        · show List.lookup "actual_range" ca = none
          rw [dictPop_ok hp]
          exact lookup_filter_self _ _
        · exact ih hr c' hmem

lemma attach_metadata_ok {grid g : DataArray} (h : attach_metadata grid = Except.ok g) :
    g.name = some "elevation"
    ∧ List.lookup "long_name" g.attrs = some "elevation relative to the geoid"
    ∧ List.lookup "units" g.attrs = some "meters"
    ∧ List.lookup "vertical_datum" g.attrs = some "EMG96"
    ∧ List.lookup "horizontal_datum" g.attrs = some "WGS84"
    ∧ List.lookup "actual_range" g.attrs = none
    ∧ ∀ c ∈ g.coords, List.lookup "actual_range" c.attrs = none := by
  unfold attach_metadata at h
  cases hp : dictPop (newAttrs grid.attrs) "actual_range" with
  | error e => rw [hp] at h; cases h
  | ok a =>
    rw [hp] at h
    cases hc : pop_coords grid.coords with
    | error e => rw [hc] at h; cases h
    | ok cs =>
      rw [hc] at h
      injection h with h
      subst h
      have ha := dictPop_ok hp
      refine ⟨rfl, ?_, ?_, ?_, ?_, ?_, ?_⟩
      · show List.lookup "long_name" a = _
        rw [ha, lookup_filter_ne (by decide), newAttrs_long_name]
      · show List.lookup "units" a = _
        rw [ha, lookup_filter_ne (by decide), newAttrs_units]
      · show List.lookup "vertical_datum" a = _
        rw [ha, lookup_filter_ne (by decide), newAttrs_vertical_datum]
      · show List.lookup "horizontal_datum" a = _
        rw [ha, lookup_filter_ne (by decide), newAttrs_horizontal_datum]
      · show List.lookup "actual_range" a = none
        rw [ha]
        exact lookup_filter_self _ _
      · exact pop_coords_ok hc

/-- C9: every grid value returned by `load_earth_relief` has had the
`actual_range` attribute removed from the array itself and from each of its
coordinate axes, while the added name, `long_name`, `units` and datum
attributes are set; no returned grid carries an `actual_range` attribute. -/
theorem load_earth_relief_strips_actual_range :
    ∀ (wh : String → String) (open_dataarray : String → DataArray)
      (resolution : String) (registration : Option String) (g : DataArray),
      (load_earth_relief wh open_dataarray resolution registration).1 = Except.ok g →
      g.name = some "elevation"
      ∧ List.lookup "long_name" g.attrs = some "elevation relative to the geoid"
      ∧ List.lookup "units" g.attrs = some "meters"
      ∧ List.lookup "vertical_datum" g.attrs = some "EMG96"
      ∧ List.lookup "horizontal_datum" g.attrs = some "WGS84"
      ∧ List.lookup "actual_range" g.attrs = none
      ∧ ∀ c ∈ g.coords, List.lookup "actual_range" c.attrs = none := by
  intro wh open_dataarray resolution registration g h
  unfold load_earth_relief at h
  cases hv : is_valid_resolution resolution with
  | error e => rw [hv] at h; cases h
  | ok u =>
    rw [hv] at h
    cases hr : registration_suffix registration with
    | error e => rw [hr] at h; cases h
    | ok reg =>
      rw [hr] at h
      exact attach_metadata_ok h

/-- Witness for C9: a concrete raw grid carrying `actual_range` on itself and
on one coordinate axis, loaded at resolution `"01d"`. -/
theorem load_earth_relief_strips_actual_range_witness :
    (load_earth_relief (fun _ => "local.nc")
        (fun _ => DataArray.mk none [("actual_range", "0 100")]
          [Coord.mk [("actual_range", "-180 180")]]) "01d" none).1
      = Except.ok (DataArray.mk (some "elevation")
          [("long_name", "elevation relative to the geoid"), ("units", "meters"),
           ("vertical_datum", "EMG96"), ("horizontal_datum", "WGS84")]
          [Coord.mk []])
    ∧ ((DataArray.mk (some "elevation")
          [("long_name", "elevation relative to the geoid"), ("units", "meters"),
           ("vertical_datum", "EMG96"), ("horizontal_datum", "WGS84")]
          [Coord.mk []]).name = some "elevation"
      ∧ List.lookup "long_name" (DataArray.mk (some "elevation")
          [("long_name", "elevation relative to the geoid"), ("units", "meters"),
           ("vertical_datum", "EMG96"), ("horizontal_datum", "WGS84")]
          [Coord.mk []]).attrs = some "elevation relative to the geoid"
      ∧ List.lookup "units" (DataArray.mk (some "elevation")
          [("long_name", "elevation relative to the geoid"), ("units", "meters"),
           ("vertical_datum", "EMG96"), ("horizontal_datum", "WGS84")]
          [Coord.mk []]).attrs = some "meters"
      ∧ List.lookup "vertical_datum" (DataArray.mk (some "elevation")
          [("long_name", "elevation relative to the geoid"), ("units", "meters"),
           ("vertical_datum", "EMG96"), ("horizontal_datum", "WGS84")]
          [Coord.mk []]).attrs = some "EMG96"
      ∧ List.lookup "horizontal_datum" (DataArray.mk (some "elevation")
          [("long_name", "elevation relative to the geoid"), ("units", "meters"),
           ("vertical_datum", "EMG96"), ("horizontal_datum", "WGS84")]
          [Coord.mk []]).attrs = some "WGS84"
      ∧ List.lookup "actual_range" (DataArray.mk (some "elevation")
          [("long_name", "elevation relative to the geoid"), ("units", "meters"),
           ("vertical_datum", "EMG96"), ("horizontal_datum", "WGS84")]
          [Coord.mk []]).attrs = none
      ∧ ∀ c ∈ (DataArray.mk (some "elevation")
          [("long_name", "elevation relative to the geoid"), ("units", "meters"),
           ("vertical_datum", "EMG96"), ("horizontal_datum", "WGS84")]
          [Coord.mk []]).coords, List.lookup "actual_range" c.attrs = none) :=
  ⟨by decide, load_earth_relief_strips_actual_range
    (fun _ => "local.nc")
    (fun _ => DataArray.mk none [("actual_range", "0 100")]
      [Coord.mk [("actual_range", "-180 180")]]) "01d" none
    (DataArray.mk (some "elevation")
      [("long_name", "elevation relative to the geoid"), ("units", "meters"),
       ("vertical_datum", "EMG96"), ("horizontal_datum", "WGS84")]
      [Coord.mk []])
    (by decide)⟩
